import Mathlib

/-!
Verification of the authentication / audit subsystem of the Fashion_Business
dashboard (`FashionDB_Project/Hand.py` and `FashionDB_Project/create_admin.py`).

The database is modelled as an explicit state (`DB`): the `app_users` table, the
`Clothing_Items` table and the `audit_log` table, together with the
auto-increment counters and a logical clock standing for the `TIMESTAMP
DEFAULT CURRENT_TIMESTAMP` columns.  `os.urandom(16)` is modelled by passing
the drawn bytes as an explicit `entropy` argument; the engine-level failure of
a SQL statement (connection loss, SQL error) is modelled by an explicit
Boolean failure-injection argument where a claim depends on it.  The one
modelled constraint is the `UNIQUE` column on `app_users.username`
(`run_modification` rolls the statement back and returns `False` on such an
error).  `hashlib.sha256(...).hexdigest()` is embedded as a full executable
SHA-256 over byte lists, and `binascii.hexlify` as lowercase hex encoding.
-/

/-! ## SHA-256 (model of Python `hashlib.sha256`), over `Nat` mod 2^32 -/

/-- Truncate to a 32-bit word, as Python's hash internals do implicitly. -/
def w32 (n : Nat) : Nat := n % 4294967296

/-- Right rotation of a 32-bit word by `n` bits. -/
def rotr (n x : Nat) : Nat := w32 ((x >>> n) ||| (x <<< (32 - n)))

/-- Bitwise complement of a 32-bit word. -/
def notw (x : Nat) : Nat := x ^^^ 4294967295

def ch (e f g : Nat) : Nat := (e &&& f) ^^^ (notw e &&& g)

def maj (a b c : Nat) : Nat := (a &&& b) ^^^ (a &&& c) ^^^ (b &&& c)

def bigSigma0 (x : Nat) : Nat := rotr 2 x ^^^ rotr 13 x ^^^ rotr 22 x

def bigSigma1 (x : Nat) : Nat := rotr 6 x ^^^ rotr 11 x ^^^ rotr 25 x

def smallSigma0 (x : Nat) : Nat := rotr 7 x ^^^ rotr 18 x ^^^ (x >>> 3)

def smallSigma1 (x : Nat) : Nat := rotr 17 x ^^^ rotr 19 x ^^^ (x >>> 10)

/-- The 64 SHA-256 round constants (FIPS 180-4, here in decimal). -/
def sha256K : List Nat :=
  [1116352408, 1899447441, 3049323471, 3921009573,
   961987163, 1508970993, 2453635748, 2870763221,
   3624381080, 310598401, 607225278, 1426881987,
   1925078388, 2162078206, 2614888103, 3248222580,
   3835390401, 4022224774, 264347078, 604807628,
   770255983, 1249150122, 1555081692, 1996064986,
   2554220882, 2821834349, 2952996808, 3210313671,
   3336571891, 3584528711, 113926993, 338241895,
   666307205, 773529912, 1294757372, 1396182291,
   1695183700, 1986661051, 2177026350, 2456956037,
   2730485921, 2820302411, 3259730800, 3345764771,
   3516065817, 3600352804, 4094571909, 275423344,
   430227734, 506948616, 659060556, 883997877,
   958139571, 1322822218, 1537002063, 1747873779,
   1955562222, 2024104815, 2227730452, 2361852424,
   2428436474, 2756734187, 3204031479, 3329325298]

/-- The eight 32-bit words of SHA-256 working state. -/
structure Hash8 where
  a : Nat
  b : Nat
  c : Nat
  d : Nat
  e : Nat
  f : Nat
  g : Nat
  h : Nat
deriving Repr, DecidableEq

/-- SHA-256 initial hash value (FIPS 180-4, here in decimal). -/
def sha256H0 : Hash8 :=
  ⟨1779033703, 3144134277, 1013904242, 2773480762,
   1359893119, 2600822924, 528734635, 1541459225⟩

/-- Big-endian bytes of `n`, `k` bytes wide. -/
def natToBytesBE : Nat → Nat → List Nat
  | 0, _ => []
  | k+1, n => natToBytesBE k (n >>> 8) ++ [n &&& 255]

/-- Group a byte list into big-endian 32-bit words. -/
def bytesToWords : List Nat → List Nat
  | b0 :: b1 :: b2 :: b3 :: rest =>
      ((((b0 <<< 8) ||| b1) <<< 8 ||| b2) <<< 8 ||| b3) :: bytesToWords rest
  | _ => []

/-- SHA-256 padding: append `0x80`, zeros to 56 mod 64, then the 64-bit
big-endian bit length. -/
def padMessage (msg : List Nat) : List Nat :=
  let L := msg.length
  let zeros := (119 - (L % 64)) % 64
  msg ++ (128 :: List.replicate zeros 0) ++ natToBytesBE 8 (8 * L)

/-- Extend the 16 message words to the full 64-entry schedule (`k` rounds of
extension remain). -/
def extendSchedule : Nat → List Nat → List Nat
  | 0, ws => ws
  | k+1, ws =>
      let t := ws.length
      let w := w32 (smallSigma1 (ws.getD (t-2) 0) + ws.getD (t-7) 0 +
                    smallSigma0 (ws.getD (t-15) 0) + ws.getD (t-16) 0)
      extendSchedule k (ws ++ [w])

/-- One round of the SHA-256 compression function. -/
def compressStep (st : Hash8) (kw : Nat × Nat) : Hash8 :=
  let t1 := w32 (st.h + bigSigma1 st.e + ch st.e st.f st.g + kw.1 + kw.2)
  let t2 := w32 (bigSigma0 st.a + maj st.a st.b st.c)
  ⟨w32 (t1 + t2), st.a, st.b, st.c, w32 (st.d + t1), st.e, st.f, st.g⟩

/-- Process one 64-byte block. -/
def compressBlock (h0 : Hash8) (block : List Nat) : Hash8 :=
  let ws := extendSchedule 48 (bytesToWords block)
  let st := (sha256K.zip ws).foldl compressStep h0
  ⟨w32 (h0.a + st.a), w32 (h0.b + st.b), w32 (h0.c + st.c), w32 (h0.d + st.d),
   w32 (h0.e + st.e), w32 (h0.f + st.f), w32 (h0.g + st.g), w32 (h0.h + st.h)⟩

/-- Split a padded message into 64-byte blocks (`fuel` bounds the recursion). -/
def chunks64 : Nat → List Nat → List (List Nat)
  | 0, _ => []
  | _+1, [] => []
  | fuel+1, bs => bs.take 64 :: chunks64 fuel (bs.drop 64)

/-- Big-endian bytes of one hash word. -/
def wordToBytes (w : Nat) : List Nat :=
  [(w >>> 24) &&& 255, (w >>> 16) &&& 255, (w >>> 8) &&& 255, w &&& 255]

/-- The 32 digest bytes of a final state. -/
def digestBytes (st : Hash8) : List Nat :=
  wordToBytes st.a ++ wordToBytes st.b ++ wordToBytes st.c ++ wordToBytes st.d ++
  wordToBytes st.e ++ wordToBytes st.f ++ wordToBytes st.g ++ wordToBytes st.h

/-- SHA-256 of a byte list. -/
def sha256Bytes (msg : List Nat) : List Nat :=
  let padded := padMessage msg
  digestBytes ((chunks64 padded.length padded).foldl compressBlock sha256H0)

/-- UTF-8 encoding of one character (model of Python `str.encode()`). -/
def utf8EncodeChar (c : Char) : List Nat :=
  let n := c.toNat
  if n < 128 then [n]
  else if n < 2048 then [192 ||| (n >>> 6), 128 ||| (n &&& 63)]
  else if n < 65536 then
    [224 ||| (n >>> 12), 128 ||| ((n >>> 6) &&& 63), 128 ||| (n &&& 63)]
  else
    [240 ||| (n >>> 18), 128 ||| ((n >>> 12) &&& 63), 128 ||| ((n >>> 6) &&& 63), 128 ||| (n &&& 63)]

/-- UTF-8 encoding of a string. -/
def utf8Encode : List Char → List Nat
  | [] => []
  | c :: cs => utf8EncodeChar c ++ utf8Encode cs

/-- Hex digit characters, lowercase, as produced by `hexdigest`/`hexlify`. -/
def hexDigitChar : Nat → Char
  | 0 => '0' | 1 => '1' | 2 => '2' | 3 => '3' | 4 => '4' | 5 => '5' | 6 => '6' | 7 => '7'
  | 8 => '8' | 9 => '9' | 10 => 'a' | 11 => 'b' | 12 => 'c' | 13 => 'd' | 14 => 'e' | _ => 'f'

/-- Lowercase hex characters of a byte list, two per byte. -/
def hexChars : List Nat → List Char
  | [] => []
  | b :: bs => hexDigitChar ((b / 16) % 16) :: hexDigitChar (b % 16) :: hexChars bs

/-- Model of `binascii.hexlify(...).decode()`. -/
def hexlify (bs : List Nat) : String := ⟨hexChars bs⟩

/-- Model of `hashlib.sha256(s.encode()).hexdigest()`. -/
def sha256_hex (s : String) : String := hexlify (sha256Bytes (utf8Encode s.data))

/-! ## Data model

Rows of the three tables the claims mention, as created by
`ensure_app_users_table`, `ensure_audit_log_table` and the `Clothing_Items`
inserts of `Hand.py`.  Nullable columns are `Option`s; `created_at` columns
are `Nat` ticks of a logical clock. -/

/-- A row of `app_users` (`ensure_app_users_table`, Hand.py lines 136-147). -/
structure AppUser where
  app_user_id : Nat
  username : String
  role : String
  password_hash : Option String
  salt : Option String
  created_at : Nat
deriving Repr, DecidableEq

/-- A row of `audit_log` (`ensure_audit_log_table`, Hand.py lines 166-179). -/
structure AuditRecord where
  audit_id : Nat
  app_user_id : Option Nat
  username : String
  action : String
  table_name : String
  row_id : String
  details : String
  created_at : Nat
deriving Repr, DecidableEq

/-- A row of `Clothing_Items` as inserted by the create-item form
(Hand.py line 334); the numeric price is carried opaquely. -/
structure ClothingItem where
  item_id : Nat
  name : String
  size : String
  color : String
  price : Nat
  collection_id : Option Nat
deriving Repr, DecidableEq

/-- The database state: the modelled tables, their auto-increment counters and
a logical clock for the `TIMESTAMP DEFAULT CURRENT_TIMESTAMP` columns. -/
structure DB where
  app_users : List AppUser
  next_user_id : Nat
  clothing_items : List ClothingItem
  next_item_id : Nat
  audit_log : List AuditRecord
  next_audit_id : Nat
  clock : Nat
deriving Repr, DecidableEq

/-- Fresh database, as after the `ensure_*_table` calls. -/
def initDB : DB := ⟨[], 1, [], 1, [], 1, 0⟩

/-! ## Operations (Hand.py / create_admin.py)

`run_modification` commits on success and rolls the statement back on a SQL
error, returning `False` (Hand.py lines 54-72).  The modelled SQL error for
`app_users` inserts is the `UNIQUE` constraint on `username`; for the other
statements an explicit `engineOk` flag injects engine-level failure. -/

/-- `INSERT INTO app_users ...` through `run_modification`: rejected (and
rolled back) when the `UNIQUE` username constraint is violated. -/
def insert_app_user (db : DB) (username role phash salt : String) : Bool × DB :=
  if db.app_users.any (fun u => u.username == username) then (false, db)
  else
    (true,
     { db with
        app_users := db.app_users ++
          [⟨db.next_user_id, username, role, some phash, some salt, db.clock⟩],
        next_user_id := db.next_user_id + 1,
        clock := db.clock + 1 })

/-- `make_salt` (Hand.py line 186, create_admin.py line 20):
`binascii.hexlify(os.urandom(16)).decode()`; the 16 bytes drawn from
`os.urandom` are the `entropy` argument. -/
def make_salt (entropy : List Nat) : String := hexlify entropy

/-- `hash_password` (Hand.py line 189, create_admin.py line 23):
`hashlib.sha256((salt + password).encode()).hexdigest()`. -/
def hash_password (password salt : String) : String := sha256_hex (salt ++ password)

/-- `create_app_user` (Hand.py lines 192-195). -/
def create_app_user (db : DB) (entropy : List Nat) (username role password : String) :
    Bool × DB :=
  let salt := make_salt entropy
  let phash := hash_password password salt
  insert_app_user db username role phash salt

/-- `authenticate_user` (Hand.py lines 197-208): `SELECT * FROM app_users WHERE
username = %s`, take the first row if any, recompute the digest and compare;
the full row is returned on a match. -/
def authenticate_user (db : DB) (username password : String) : Option AppUser :=
  match db.app_users.filter (fun u => u.username == username) with
  | [] => none
  | row :: _ =>
    match row.salt, row.password_hash with
    | some salt, some stored =>
        if hash_password password salt == stored then some row else none
    | _, _ => none

/-- `login_user` (Hand.py lines 221-229): on success store the authenticated
row in the session state; on any failure show one generic error and leave the
session unchanged. -/
def login_user (db : DB) (session : Option AppUser) (username password : String) :
    Bool × Option AppUser :=
  match authenticate_user db username password with
  | some user => (true, some user)
  | none => (false, session)

/-- `audit_log` (Hand.py lines 211-215): one `INSERT INTO audit_log`; the
Boolean returned by `run_modification` is discarded, so this returns only the
state.  `engineOk = false` injects a failed (rolled-back) insert. -/
def audit_log_op (db : DB) (engineOk : Bool) (app_user_id : Option Nat)
    (username action table_name row_id details : String) : DB :=
  if engineOk then
    { db with
        audit_log := db.audit_log ++
          [⟨db.next_audit_id, app_user_id, username, action, table_name, row_id,
            details, db.clock⟩],
        next_audit_id := db.next_audit_id + 1,
        clock := db.clock + 1 }
  else db

/-- `INSERT INTO Clothing_Items ...` (Hand.py line 334-335);
`engineOk = false` injects the engine rejecting the statement. -/
def insert_clothing_item (db : DB) (engineOk : Bool) (nm size color : String)
    (price : Nat) (collection_id : Option Nat) : Bool × DB :=
  if engineOk then
    (true,
     { db with
        clothing_items := db.clothing_items ++
          [⟨db.next_item_id, nm, size, color, price, collection_id⟩],
        next_item_id := db.next_item_id + 1 })
  else (false, db)

/-- The create-item form handler (Hand.py lines 332-339): run the insert; only
if it committed, show success and fire the audit insert, whose own outcome is
discarded.  The returned Boolean is whether success was shown. -/
def create_item_form (db : DB) (engineOk auditOk : Bool) (uid : Option Nat)
    (actor nm size color : String) (price : Nat) (collection_id : Option Nat) :
    Bool × DB :=
  let r := insert_clothing_item db engineOk nm size color price collection_id
  if r.1 then
    (true, audit_log_op r.2 auditOk uid actor "CREATE_ITEM" "Clothing_Items" "" nm)
  else (false, r.2)

/-- Outcome shown to the interactive caller by a form handler. -/
inductive FormOutcome where
  | validationError
  | dbError
  | success
deriving Repr, DecidableEq

/-- The admin create-app-user form handler (Hand.py lines 863-875): reject an
empty username or a stripped password shorter than 4 characters before calling
`create_app_user`; on success audit `CREATE_APP_USER` with the raw username in
the details. -/
def create_app_user_form (db : DB) (entropy : List Nat) (auditOk : Bool)
    (actor_uid : Option Nat) (actor : String) (uname role pw : String) :
    FormOutcome × DB :=
  if uname.trim.length == 0 || pw.trim.length < 4 then (.validationError, db)
  else
    let r := create_app_user db entropy uname.trim role pw.trim
    if r.1 then
      (.success,
       audit_log_op r.2 auditOk actor_uid actor "CREATE_APP_USER" "app_users" "" uname)
    else (.dbError, r.2)

/-- `create_admin` (create_admin.py lines 26-40): same salt/hash logic, role
fixed to `admin`, insert into `app_users`. -/
def create_admin (db : DB) (entropy : List Nat) (username password : String) :
    Bool × DB :=
  let salt := make_salt entropy
  let phash := hash_password password salt
  insert_app_user db username "admin" phash salt

/-- The `__main__` block of create_admin.py (lines 42-48): strip both inputs,
reject an empty username or a password shorter than 4 characters, otherwise
insert the admin credential. -/
def create_admin_main (db : DB) (entropy : List Nat) (raw_uname raw_pw : String) :
    FormOutcome × DB :=
  let uname := raw_uname.trim
  let pw := raw_pw.trim
  if uname.length == 0 || pw.length < 4 then (.validationError, db)
  else
    let r := create_admin db entropy uname pw
    (if r.1 then .success else .dbError, r.2)

/-! ## Procedure-arity probe and ProcessSale dispatch -/

/-- A row of `information_schema.parameters`. -/
structure CatalogParam where
  specific_schema : String
  specific_name : String
  parameter_mode : String
deriving Repr, DecidableEq

/-- The count computed by the catalog query of `get_proc_param_count`
(Hand.py lines 111-116): `COUNT(*)` over the rows of the routine whose
`parameter_mode` is `IN` or `INOUT`. -/
def countInParams (catalog : List CatalogParam) (schema proc_name : String) : Nat :=
  (catalog.filter (fun p =>
    p.specific_schema == schema && p.specific_name == proc_name &&
    (p.parameter_mode == "IN" || p.parameter_mode == "INOUT"))).length

/-- `get_proc_param_count` (Hand.py lines 108-123): `run_query` yields an empty
frame when the query fails (`queryOk = false`) and otherwise the single
`COUNT(*)` row; an empty frame gives `None`, else the counted value. -/
def get_proc_param_count (queryOk : Bool) (catalog : List CatalogParam)
    (schema proc_name : String) : Option Nat :=
  let df : List Nat := if queryOk then [countInParams catalog schema proc_name] else []
  match df with
  | [] => none
  | cnt :: _ => some cnt

/-- The positional-argument tuple passed to `ProcessSale` by the sale form. -/
inductive SaleParams where
  | fourArg (item_id store_id qty : Nat) (payment : String)
  | fiveArg (sale_date : Nat) (store_id item_id qty : Nat) (payment : String)
deriving Repr, DecidableEq

/-- The `proc_sale` form's dispatch on the probed parameter count
(Hand.py lines 432-444): `None` → 4-argument shape, `cnt >= 5` → 5-argument
shape `(sale_date, store, item, qty, payment)`, otherwise the 4-argument shape
`(item, store, qty, payment)`. -/
def proc_sale_dispatch (cnt : Option Nat) (sale_date item_id store_id qty : Nat)
    (payment : String) : SaleParams :=
  match cnt with
  | none => .fourArg item_id store_id qty payment
  | some c =>
      if 5 ≤ c then .fiveArg sale_date store_id item_id qty payment
      else .fourArg item_id store_id qty payment

/-- The full sale-form path: probe `ProcessSale`, then dispatch
(Hand.py lines 432-445). -/
def proc_sale_form (queryOk : Bool) (catalog : List CatalogParam) (schema : String)
    (sale_date item_id store_id qty : Nat) (payment : String) : SaleParams :=
  proc_sale_dispatch (get_proc_param_count queryOk catalog schema "ProcessSale")
    sale_date item_id store_id qty payment

/-! ## The program's mutating operations, as one step relation (for the
append-only audit invariant) -/

/-- One user-triggered operation of the modelled program. -/
inductive Op where
  | registerForm (entropy : List Nat) (auditOk : Bool) (actor_uid : Option Nat)
      (actor uname role pw : String)
  | adminBootstrap (entropy : List Nat) (raw_uname raw_pw : String)
  | login (username password : String)
  | createItem (engineOk auditOk : Bool) (uid : Option Nat)
      (actor nm size color : String) (price : Nat) (collection_id : Option Nat)
  | updateItem (engineOk auditOk : Bool) (uid : Option Nat)
      (actor : String) (item_id : Nat) (new_name : String) (new_price : Nat)
  | deleteItem (engineOk auditOk : Bool) (uid : Option Nat)
      (actor : String) (item_id : Nat)
  | auditOnly (engineOk : Bool) (uid : Option Nat)
      (username action table_name row_id details : String)

/-- The update-item handler (Hand.py lines 356-361): `UPDATE Clothing_Items SET
name=%s, price=%s WHERE item_id=%s`, audited on success. -/
def update_item_form (db : DB) (engineOk auditOk : Bool) (uid : Option Nat)
    (actor : String) (item_id : Nat) (new_name : String) (new_price : Nat) :
    Bool × DB :=
  if engineOk then
    let db1 := { db with
      clothing_items := db.clothing_items.map (fun it =>
        if it.item_id == item_id then { it with name := new_name, price := new_price }
        else it) }
    (true, audit_log_op db1 auditOk uid actor "UPDATE_ITEM" "Clothing_Items"
      (toString item_id) ("name->" ++ new_name))
  else (false, db)

/-- The delete-item handler (Hand.py lines 368-373): `DELETE FROM
Clothing_Items WHERE item_id=%s`, audited on success. -/
def delete_item_form (db : DB) (engineOk auditOk : Bool) (uid : Option Nat)
    (actor : String) (item_id : Nat) : Bool × DB :=
  if engineOk then
    let db1 := { db with
      clothing_items := db.clothing_items.filter (fun it => !(it.item_id == item_id)) }
    (true, audit_log_op db1 auditOk uid actor "DELETE_ITEM" "Clothing_Items"
      (toString item_id) "deleted")
  else (false, db)

/-- The state transition of each modelled operation. -/
def step (op : Op) (db : DB) : DB :=
  match op with
  | .registerForm entropy auditOk actor_uid actor uname role pw =>
      (create_app_user_form db entropy auditOk actor_uid actor uname role pw).2
  | .adminBootstrap entropy raw_uname raw_pw =>
      (create_admin_main db entropy raw_uname raw_pw).2
  | .login _ _ => db
  | .createItem engineOk auditOk uid actor nm size color price coll =>
      (create_item_form db engineOk auditOk uid actor nm size color price coll).2
  | .updateItem engineOk auditOk uid actor item_id nm pr =>
      (update_item_form db engineOk auditOk uid actor item_id nm pr).2
  | .deleteItem engineOk auditOk uid actor item_id =>
      (delete_item_form db engineOk auditOk uid actor item_id).2
  | .auditOnly engineOk uid username action tbl rid det =>
      audit_log_op db engineOk uid username action tbl rid det

/-- `b` extends `a` by appending only: no existing entry is mutated or
removed. -/
def auditExtends (a b : List AuditRecord) : Prop := ∃ t, b = a ++ t

/-- Well-formedness of the audit counters: every recorded id is below the
auto-increment counter and every recorded timestamp is below the clock. -/
def AuditWF (db : DB) : Prop :=
  ∀ r ∈ db.audit_log, r.audit_id < db.next_audit_id ∧ r.created_at < db.clock

/-- Run a sequence of operations. -/
def run (ops : List Op) (db : DB) : DB := ops.foldl (fun d op => step op d) db

instance (db : DB) : Decidable (AuditWF db) := by
  unfold AuditWF; infer_instance

/-- The sixteen lowercase hexadecimal digits. -/
def hexAlphabet : List Char := "0123456789abcdef".data

/-! Concrete stores used by the witnesses below. -/

def c3_entropy : List Nat := List.replicate 16 171

def c3_db : DB := (create_app_user initDB c3_entropy "alice" "manager" "pass1234").2

def c3_row : AppUser :=
  ⟨1, "alice", "manager", some (hash_password "pw" "aa"), some "aa", 0⟩

def c3_wdb : DB := ⟨[c3_row], 2, [], 1, [], 1, 1⟩

def c5_wdb : DB := ⟨[⟨1, "alice", "manager", some "h", some "s", 0⟩], 2, [], 1, [], 1, 1⟩

def c6_wdb : DB :=
  audit_log_op initDB true (some 1) "alice" "CREATE_ITEM" "Clothing_Items" "" "shirt"

/-! ## Helper lemmas -/

theorem hexChars_length (bs : List Nat) : (hexChars bs).length = 2 * bs.length := by
  induction bs with
  | nil => rfl
  | cons b bs ih => simp [hexChars, ih]; omega

theorem hexlify_length (bs : List Nat) : (hexlify bs).length = 2 * bs.length :=
  hexChars_length bs

theorem digestBytes_length (st : Hash8) : (digestBytes st).length = 32 := by
  simp [digestBytes, wordToBytes]

theorem sha256Bytes_length (msg : List Nat) : (sha256Bytes msg).length = 32 :=
  digestBytes_length _

theorem sha256_hex_length (s : String) : (sha256_hex s).length = 64 := by
  unfold sha256_hex
  rw [hexlify_length, sha256Bytes_length]

theorem hash_password_length (password salt : String) :
    (hash_password password salt).length = 64 :=
  sha256_hex_length _

theorem hexDigitChar_mem : ∀ n, hexDigitChar n ∈ hexAlphabet
  | 0 => by decide
  | 1 => by decide
  | 2 => by decide
  | 3 => by decide
  | 4 => by decide
  | 5 => by decide
  | 6 => by decide
  | 7 => by decide
  | 8 => by decide
  | 9 => by decide
  | 10 => by decide
  | 11 => by decide
  | 12 => by decide
  | 13 => by decide
  | 14 => by decide
  | n + 15 => by
      show hexDigitChar (n + 15) ∈ hexAlphabet
      match n with
      | 0 => decide
      | m + 1 => show 'f' ∈ hexAlphabet; decide

theorem hexChars_mem (bs : List Nat) : ∀ c ∈ hexChars bs, c ∈ hexAlphabet := by
  induction bs with
  | nil => intro c hc; cases hc
  | cons b bs ih =>
      intro c hc
      rcases hc with _ | ⟨_, hc⟩
      · exact hexDigitChar_mem _
      · rcases hc with _ | ⟨_, hc⟩
        · exact hexDigitChar_mem _
        · exact ih c hc

theorem make_salt_length (entropy : List Nat) :
    (make_salt entropy).length = 2 * entropy.length :=
  hexlify_length entropy

/-- A successful `create_app_user` means the username was fresh. -/
theorem create_app_user_fresh (db : DB) (entropy : List Nat) (u r p : String)
    (hok : (create_app_user db entropy u r p).1 = true) :
    db.app_users.any (fun x => x.username == u) = false := by
  unfold create_app_user insert_app_user at hok
  by_cases hany : db.app_users.any (fun x => x.username == u) = true
  · simp [hany] at hok
  · simpa using hany

/-- The state after a successful `create_app_user`. -/
theorem create_app_user_eq (db : DB) (entropy : List Nat) (u r p : String)
    (hok : (create_app_user db entropy u r p).1 = true) :
    (create_app_user db entropy u r p).2 =
      { db with
          app_users := db.app_users ++
            [⟨db.next_user_id, u, r, some (hash_password p (make_salt entropy)),
              some (make_salt entropy), db.clock⟩],
          next_user_id := db.next_user_id + 1,
          clock := db.clock + 1 } := by
  have hany := create_app_user_fresh db entropy u r p hok
  unfold create_app_user insert_app_user
  simp [hany]

/-! ## Claim theorems -/

/-- C1: for every valid (username, password) pair and role, calling
`authenticate_user(username, password)` immediately after a successful
`create_app_user(username, role, password)` succeeds and returns a credential
whose role equals the role given at registration. -/
theorem c1_register_then_authenticate (db : DB) (entropy : List Nat)
    (u r p : String) (hok : (create_app_user db entropy u r p).1 = true) :
    ∃ cred, authenticate_user (create_app_user db entropy u r p).2 u p = some cred ∧
      cred.role = r := by
  have hany := create_app_user_fresh db entropy u r p hok
  rw [create_app_user_eq db entropy u r p hok]
  refine ⟨⟨db.next_user_id, u, r, some (hash_password p (make_salt entropy)),
    some (make_salt entropy), db.clock⟩, ?_, rfl⟩
  unfold authenticate_user
  have hnil : db.app_users.filter (fun x => x.username == u) = [] := by
    rw [List.filter_eq_nil_iff]
    intro a ha
    have := (List.any_eq_false).mp hany a ha
    simpa using this
  simp [List.filter_append, hnil]

/-- Witness for C1 at a concrete fresh registration. -/
theorem c1_witness :
    (create_app_user initDB (List.replicate 16 171) "alice" "manager" "pass1234").1
      = true ∧
    ∃ cred,
      authenticate_user
        (create_app_user initDB (List.replicate 16 171) "alice" "manager" "pass1234").2
        "alice" "pass1234" = some cred ∧ cred.role = "manager" :=
  ⟨by decide,
   c1_register_then_authenticate initDB (List.replicate 16 171) "alice" "manager"
     "pass1234" (by decide)⟩

/-- C2: `authenticate_user` fails with the same failure value `none` both when
the username is not registered (the `SELECT` returns no row) and when the
username is registered but the recomputed digest of the supplied password does
not match the stored digest; nothing distinguishes the two failures. -/
theorem c2_invalid_credentials_uniform (db : DB) (u p : String) :
    (db.app_users.filter (fun x => x.username == u) = [] →
       authenticate_user db u p = none) ∧
    (∀ row rest salt stored,
       db.app_users.filter (fun x => x.username == u) = row :: rest →
       row.salt = some salt → row.password_hash = some stored →
       hash_password p salt ≠ stored →
       authenticate_user db u p = none) := by
  constructor
  · intro hnil
    unfold authenticate_user
    rw [hnil]
  · intro row rest salt stored hcons hs hp hne
    unfold authenticate_user
    rw [hcons]
    simp [hs, hp, hne]

/-- Witness for C2: a store holding only `alice`; `bob` is unknown and a wrong
password for `alice` recomputes a digest different from the stored one (they
differ already in length). -/
theorem c2_witness :
    authenticate_user
      ⟨[⟨1, "alice", "manager", some "notahash", some "aa", 0⟩], 2, [], 1, [], 1, 1⟩
      "bob" "pw" = none ∧
    authenticate_user
      ⟨[⟨1, "alice", "manager", some "notahash", some "aa", 0⟩], 2, [], 1, [], 1, 1⟩
      "alice" "wrong" = none :=
  ⟨(c2_invalid_credentials_uniform _ "bob" "pw").1 (by decide),
   (c2_invalid_credentials_uniform _ "alice" "wrong").2
     ⟨1, "alice", "manager", some "notahash", some "aa", 0⟩ [] "aa" "notahash"
     (by decide) rfl rfl
     (fun h => by
        have := congrArg String.length h
        rw [hash_password_length] at this
        exact absurd this (by decide))⟩

/-- C3 counterexample: after registering `alice`, a successful
`authenticate_user` returns a value that still carries the stored salt and the
stored password digest — `row.to_dict()` of the `SELECT *` row strips
nothing. -/
theorem c3_counterexample :
    (authenticate_user c3_db "alice" "pass1234").map AppUser.salt
      = some (some (make_salt c3_entropy)) ∧
    (authenticate_user c3_db "alice" "pass1234").map AppUser.password_hash
      = some (some (hash_password "pass1234" (make_salt c3_entropy))) := by
  have hok : (create_app_user initDB c3_entropy "alice" "manager" "pass1234").1
      = true := by decide
  have hdb := create_app_user_eq initDB c3_entropy "alice" "manager" "pass1234" hok
  unfold c3_db
  rw [hdb]
  unfold authenticate_user
  simp [initDB]

/-- C3 amended: on a successful password match `authenticate_user` returns the
full stored credential row — including the stored `password_hash` and `salt`
fields, which are not removed. -/
theorem c3_amended_returns_full_row (db : DB) (u p : String) (row : AppUser)
    (rest : List AppUser) (salt stored : String)
    (hcons : db.app_users.filter (fun x => x.username == u) = row :: rest)
    (hs : row.salt = some salt) (hp : row.password_hash = some stored)
    (hm : hash_password p salt = stored) :
    authenticate_user db u p = some row := by
  unfold authenticate_user
  rw [hcons]
  simp [hs, hp, hm]

/-- Witness for the amended C3 at a concrete matching login. -/
theorem c3_witness : authenticate_user c3_wdb "alice" "pw" = some c3_row :=
  c3_amended_returns_full_row c3_wdb "alice" "pw" c3_row [] "aa"
    (hash_password "pw" "aa") (by simp [c3_wdb, c3_row]) rfl rfl rfl

/-- C4: registration turns the 16 drawn random bytes into a 32-character
lowercase-hexadecimal salt and persists
`digest = SHA-256(salt ‖ plaintextPassword)` as the stored password hash. -/
theorem c4_salt_and_digest (db : DB) (entropy : List Nat) (u r p : String)
    (hlen : entropy.length = 16) (_hbytes : ∀ b ∈ entropy, b < 256)
    (hok : (create_app_user db entropy u r p).1 = true) :
    (make_salt entropy).length = 32 ∧
    (∀ c ∈ (make_salt entropy).data, c ∈ hexAlphabet) ∧
    ∃ usr ∈ (create_app_user db entropy u r p).2.app_users,
      usr.username = u ∧ usr.role = r ∧
      usr.salt = some (make_salt entropy) ∧
      usr.password_hash = some (sha256_hex (make_salt entropy ++ p)) := by
  refine ⟨by rw [make_salt_length, hlen], ?_, ?_⟩
  · intro c hc
    exact hexChars_mem entropy c hc
  · rw [create_app_user_eq db entropy u r p hok]
    exact ⟨⟨db.next_user_id, u, r, some (hash_password p (make_salt entropy)),
      some (make_salt entropy), db.clock⟩, by simp, rfl, rfl, rfl, rfl⟩

/-- Witness for C4 at a concrete 16-byte entropy draw. -/
theorem c4_witness :
    (List.replicate 16 7).length = 16 ∧ (∀ b ∈ List.replicate 16 7, b < 256) ∧
    (create_app_user initDB (List.replicate 16 7) "bob" "cashier" "pw12").1 = true ∧
    ((make_salt (List.replicate 16 7)).length = 32 ∧
     (∀ c ∈ (make_salt (List.replicate 16 7)).data, c ∈ hexAlphabet) ∧
     ∃ usr ∈ (create_app_user initDB (List.replicate 16 7) "bob" "cashier"
        "pw12").2.app_users,
       usr.username = "bob" ∧ usr.role = "cashier" ∧
       usr.salt = some (make_salt (List.replicate 16 7)) ∧
       usr.password_hash = some (sha256_hex (make_salt (List.replicate 16 7) ++ "pw12"))) :=
  ⟨by decide, by decide, by decide,
   c4_salt_and_digest initDB (List.replicate 16 7) "bob" "cashier" "pw12"
     (by decide) (by decide) (by decide)⟩

/-- C5: registering a username equal (case-sensitively) to an existing
credential's username is rejected by the uniqueness constraint, the statement
is rolled back, and the database — in particular the existing credential — is
left unchanged. -/
theorem c5_duplicate_username_rejected (db : DB) (entropy : List Nat)
    (u r p : String) (ex : AppUser) (hmem : ex ∈ db.app_users)
    (hu : ex.username = u) :
    (create_app_user db entropy u r p).1 = false ∧
    (create_app_user db entropy u r p).2 = db := by
  have hany : db.app_users.any (fun x => x.username == u) = true := by
    rw [List.any_eq_true]
    exact ⟨ex, hmem, by simp [hu]⟩
  unfold create_app_user insert_app_user
  simp [hany]

/-- Witness for C5: re-registering `alice` fails and changes nothing. -/
theorem c5_witness :
    (create_app_user c5_wdb (List.replicate 16 3) "alice" "cashier" "other").1 = false ∧
    (create_app_user c5_wdb (List.replicate 16 3) "alice" "cashier" "other").2 = c5_wdb :=
  c5_duplicate_username_rejected c5_wdb (List.replicate 16 3) "alice" "cashier"
    "other" ⟨1, "alice", "manager", some "h", some "s", 0⟩ (by decide) rfl

/-! Helper lemmas for the append-only audit invariant. -/

theorem auditExtends_refl (a : List AuditRecord) : auditExtends a a :=
  ⟨[], (List.append_nil a).symm⟩

theorem auditExtends_trans {a b c : List AuditRecord}
    (h1 : auditExtends a b) (h2 : auditExtends b c) : auditExtends a c := by
  obtain ⟨t1, rfl⟩ := h1
  obtain ⟨t2, rfl⟩ := h2
  exact ⟨t1 ++ t2, by rw [List.append_assoc]⟩

theorem auditExtends_of_eq {a b : List AuditRecord} (h : b = a) : auditExtends a b :=
  ⟨[], by rw [h, List.append_nil]⟩

theorem audit_log_op_extends (db : DB) (engineOk : Bool) (uid : Option Nat)
    (uname action tbl rid det : String) :
    auditExtends db.audit_log
      (audit_log_op db engineOk uid uname action tbl rid det).audit_log := by
  unfold audit_log_op
  cases engineOk with
  | false => exact auditExtends_refl _
  | true => exact ⟨[⟨db.next_audit_id, uid, uname, action, tbl, rid, det, db.clock⟩], rfl⟩

theorem insert_app_user_audit_log (db : DB) (u r ph s : String) :
    ((insert_app_user db u r ph s).2).audit_log = db.audit_log := by
  unfold insert_app_user
  split <;> rfl

theorem create_app_user_audit_log (db : DB) (entropy : List Nat) (u r p : String) :
    ((create_app_user db entropy u r p).2).audit_log = db.audit_log :=
  insert_app_user_audit_log ..

theorem insert_clothing_item_audit_log (db : DB) (engineOk : Bool)
    (nm size color : String) (price : Nat) (coll : Option Nat) :
    ((insert_clothing_item db engineOk nm size color price coll).2).audit_log
      = db.audit_log := by
  unfold insert_clothing_item
  split <;> rfl

theorem create_app_user_form_audit (db : DB) (entropy : List Nat) (auditOk : Bool)
    (actor_uid : Option Nat) (actor uname role pw : String) :
    auditExtends db.audit_log
      ((create_app_user_form db entropy auditOk actor_uid actor uname role pw).2).audit_log := by
  unfold create_app_user_form
  split
  · exact auditExtends_refl _
  · dsimp only
    split
    · exact auditExtends_trans
        (auditExtends_of_eq (create_app_user_audit_log db entropy uname.trim role pw.trim))
        (audit_log_op_extends ..)
    · exact auditExtends_of_eq (create_app_user_audit_log ..)

theorem create_admin_main_audit (db : DB) (entropy : List Nat)
    (raw_uname raw_pw : String) :
    auditExtends db.audit_log
      ((create_admin_main db entropy raw_uname raw_pw).2).audit_log := by
  unfold create_admin_main create_admin
  dsimp only
  split
  · exact auditExtends_refl _
  · exact auditExtends_of_eq (insert_app_user_audit_log ..)

theorem create_item_form_audit (db : DB) (engineOk auditOk : Bool)
    (uid : Option Nat) (actor nm size color : String) (price : Nat)
    (coll : Option Nat) :
    auditExtends db.audit_log
      ((create_item_form db engineOk auditOk uid actor nm size color price coll).2).audit_log := by
  unfold create_item_form
  dsimp only
  split
  · exact auditExtends_trans
      (auditExtends_of_eq (insert_clothing_item_audit_log db engineOk nm size color price coll))
      (audit_log_op_extends ..)
  · exact auditExtends_of_eq (insert_clothing_item_audit_log ..)

theorem update_item_form_audit (db : DB) (engineOk auditOk : Bool)
    (uid : Option Nat) (actor : String) (item_id : Nat) (nm : String) (pr : Nat) :
    auditExtends db.audit_log
      ((update_item_form db engineOk auditOk uid actor item_id nm pr).2).audit_log := by
  unfold update_item_form
  split
  · exact audit_log_op_extends ..
  · exact auditExtends_refl _

theorem delete_item_form_audit (db : DB) (engineOk auditOk : Bool)
    (uid : Option Nat) (actor : String) (item_id : Nat) :
    auditExtends db.audit_log
      ((delete_item_form db engineOk auditOk uid actor item_id).2).audit_log := by
  unfold delete_item_form
  split
  · exact audit_log_op_extends ..
  · exact auditExtends_refl _

/-- Every modelled operation leaves the existing audit records in place. -/
theorem step_audit_extends (op : Op) (db : DB) :
    auditExtends db.audit_log (step op db).audit_log := by
  cases op with
  | registerForm entropy auditOk actor_uid actor uname role pw =>
      exact create_app_user_form_audit ..
  | adminBootstrap entropy raw_uname raw_pw =>
      exact create_admin_main_audit ..
  | login u p => exact auditExtends_refl _
  | createItem engineOk auditOk uid actor nm size color price coll =>
      exact create_item_form_audit ..
  | updateItem engineOk auditOk uid actor item_id nm pr =>
      exact update_item_form_audit ..
  | deleteItem engineOk auditOk uid actor item_id =>
      exact delete_item_form_audit ..
  | auditOnly engineOk uid username action tbl rid det =>
      exact audit_log_op_extends ..

/-- C6: the audit store is append-only.  A successful `audit_log` insert adds
exactly one record, which is last both by id and by creation time; and no
modelled operation of the program mutates or removes an existing audit
record. -/
theorem c6_audit_append_only (db : DB) (uid : Option Nat)
    (uname action tbl rid det : String) (hwf : AuditWF db) :
    (∃ rec, (audit_log_op db true uid uname action tbl rid det).audit_log
        = db.audit_log ++ [rec] ∧
      ∀ old ∈ db.audit_log,
        old.audit_id < rec.audit_id ∧ old.created_at < rec.created_at) ∧
    (∀ op, auditExtends db.audit_log (step op db).audit_log) := by
  refine ⟨⟨⟨db.next_audit_id, uid, uname, action, tbl, rid, det, db.clock⟩, ?_, ?_⟩, ?_⟩
  · simp [audit_log_op]
  · intro old hold
    exact hwf old hold
  · intro op
    exact step_audit_extends op db

/-- Witness for C6 at a concrete store already holding one audit record. -/
theorem c6_witness :
    AuditWF c6_wdb ∧
    ((∃ rec, (audit_log_op c6_wdb true (some 1) "alice" "DELETE_ITEM"
          "Clothing_Items" "7" "deleted").audit_log = c6_wdb.audit_log ++ [rec] ∧
        ∀ old ∈ c6_wdb.audit_log,
          old.audit_id < rec.audit_id ∧ old.created_at < rec.created_at) ∧
     (∀ op, auditExtends c6_wdb.audit_log (step op c6_wdb).audit_log)) :=
  ⟨by decide,
   c6_audit_append_only c6_wdb (some 1) "alice" "DELETE_ITEM" "Clothing_Items"
     "7" "deleted" (by decide)⟩


/-- C7: audit recording is best-effort and decoupled from the business
mutation: the audit insert fires only after the item insert has committed
(a failed mutation leaves the state, audit log included, untouched), and a
failed audit write is discarded — it never blocks, rolls back, or changes the
outcome shown for the mutation. -/
theorem c7_audit_best_effort (db : DB) (engineOk auditOk : Bool)
    (uid : Option Nat) (actor nm size color : String) (price : Nat)
    (coll : Option Nat) :
    ((create_item_form db engineOk auditOk uid actor nm size color price coll).1
       = engineOk) ∧
    ((create_item_form db engineOk auditOk uid actor nm size color price coll).2.clothing_items
       = (insert_clothing_item db engineOk nm size color price coll).2.clothing_items) ∧
    (engineOk = false →
       (create_item_form db engineOk auditOk uid actor nm size color price coll).2
         = db) ∧
    ((create_item_form db true false uid actor nm size color price coll).2.audit_log
       = db.audit_log ∧
     (create_item_form db true false uid actor nm size color price coll).1 = true) := by
  cases engineOk <;> cases auditOk <;>
    simp [create_item_form, insert_clothing_item, audit_log_op]

/-- Witness for C7: a failed mutation leaves everything unchanged, and a
successful mutation with a failed audit write still reports success. -/
theorem c7_witness :
    (create_item_form initDB false true (some 1) "alice" "shirt" "M" "red" 5
       none).2 = initDB :=
  (c7_audit_best_effort initDB false true (some 1) "alice" "shirt" "M" "red" 5
     none).2.2.1 rfl

/-- C8 counterexample: probing a routine absent from the catalog does not
return `Unknown`: the `COUNT(*)` query always yields one row, so the probe
returns `some 0`. -/
theorem c8_counterexample :
    get_proc_param_count true [] "fashion_business" "NoSuchProc" = some 0 ∧
    get_proc_param_count true [] "fashion_business" "NoSuchProc" ≠ none := by
  exact ⟨rfl, by decide⟩

/-- C8 amended: when the catalog query succeeds the probe returns the count of
catalogued IN/INOUT parameters of the routine — `0`, not `Unknown`, for an
absent routine — and it returns `Unknown` (`none`) exactly when the query
fails and yields no row. -/
theorem c8_probe_count (catalog : List CatalogParam) (schema pn : String) :
    get_proc_param_count true catalog schema pn
      = some (countInParams catalog schema pn) ∧
    get_proc_param_count false catalog schema pn = none :=
  ⟨rfl, rfl⟩

/-- C9: the ProcessSale call-site dispatch distinguishes exactly two shapes:
probed count at least 5 invokes the 5-argument shape
`(sale_date, store_id, item_id, quantity, payment)`; a probed count below 5 or
an unknown count invokes the 4-argument shape
`(item_id, store_id, quantity, payment)`. -/
theorem c9_proc_sale_dispatch (cnt : Option Nat)
    (sale_date item_id store_id qty : Nat) (payment : String) :
    (∀ c, cnt = some c → 5 ≤ c →
       proc_sale_dispatch cnt sale_date item_id store_id qty payment
         = .fiveArg sale_date store_id item_id qty payment) ∧
    (cnt = none →
       proc_sale_dispatch cnt sale_date item_id store_id qty payment
         = .fourArg item_id store_id qty payment) ∧
    (∀ c, cnt = some c → c < 5 →
       proc_sale_dispatch cnt sale_date item_id store_id qty payment
         = .fourArg item_id store_id qty payment) := by
  refine ⟨?_, ?_, ?_⟩
  · rintro c rfl h5
    show (if 5 ≤ c then SaleParams.fiveArg sale_date store_id item_id qty payment
      else SaleParams.fourArg item_id store_id qty payment) = _
    rw [if_pos h5]
  · rintro rfl
    rfl
  · rintro c rfl h5
    show (if 5 ≤ c then SaleParams.fiveArg sale_date store_id item_id qty payment
      else SaleParams.fourArg item_id store_id qty payment) = _
    rw [if_neg (by omega)]

/-- Witness for C9 at counts 5, unknown, and 4. -/
theorem c9_witness :
    proc_sale_dispatch (some 5) 20250101 3 2 1 "Cash"
      = .fiveArg 20250101 2 3 1 "Cash" ∧
    proc_sale_dispatch none 20250101 3 2 1 "Cash" = .fourArg 3 2 1 "Cash" ∧
    proc_sale_dispatch (some 4) 20250101 3 2 1 "Cash" = .fourArg 3 2 1 "Cash" :=
  ⟨(c9_proc_sale_dispatch (some 5) 20250101 3 2 1 "Cash").1 5 rfl (by decide),
   (c9_proc_sale_dispatch none 20250101 3 2 1 "Cash").2.1 rfl,
   (c9_proc_sale_dispatch (some 4) 20250101 3 2 1 "Cash").2.2 4 rfl (by decide)⟩

/-- C10: `create_app_user` itself imposes no password length or complexity
check — any password, in particular one shorter than 4 characters, is hashed
and persisted; the minimum length of 4 is enforced only at the call sites (the
admin form and the command-line bootstrap) before registration is invoked. -/
theorem c10_no_length_check_in_register (db : DB) (entropy : List Nat)
    (u r p : String)
    (hfresh : db.app_users.any (fun x => x.username == u) = false) :
    ((create_app_user db entropy u r p).1 = true ∧
     ∃ usr ∈ (create_app_user db entropy u r p).2.app_users,
       usr.username = u ∧
       usr.password_hash = some (hash_password p (make_salt entropy))) ∧
    (∀ auditOk actor_uid actor uname role1 pw, pw.trim.length < 4 →
       create_app_user_form db entropy auditOk actor_uid actor uname role1 pw
         = (.validationError, db)) ∧
    (∀ raw_u raw_p, raw_p.trim.length < 4 →
       create_admin_main db entropy raw_u raw_p = (.validationError, db)) := by
  have hok : (create_app_user db entropy u r p).1 = true := by
    unfold create_app_user insert_app_user
    simp [hfresh]
  refine ⟨⟨hok, ?_⟩, ?_, ?_⟩
  · rw [create_app_user_eq db entropy u r p hok]
    exact ⟨⟨db.next_user_id, u, r, some (hash_password p (make_salt entropy)),
      some (make_salt entropy), db.clock⟩, by simp, rfl, rfl⟩
  · intro auditOk actor_uid actor uname role1 pw hpw
    simp [create_app_user_form, hpw]
  · intro raw_u raw_p hpw
    simp [create_admin_main, hpw]

/-- Witness for C10: a two-character password is accepted and hashed by
`create_app_user` itself, while both call sites reject it. -/
theorem c10_witness :
    (((create_app_user initDB (List.replicate 16 1) "eve" "analyst" "ab").1 = true ∧
      ∃ usr ∈ (create_app_user initDB (List.replicate 16 1) "eve" "analyst"
          "ab").2.app_users,
        usr.username = "eve" ∧
        usr.password_hash
          = some (hash_password "ab" (make_salt (List.replicate 16 1)))) ∧
     (∀ auditOk actor_uid actor uname role1 pw, pw.trim.length < 4 →
        create_app_user_form initDB (List.replicate 16 1) auditOk actor_uid actor
          uname role1 pw = (.validationError, initDB)) ∧
     (∀ raw_u raw_p, raw_p.trim.length < 4 →
        create_admin_main initDB (List.replicate 16 1) raw_u raw_p
          = (.validationError, initDB))) :=
  c10_no_length_check_in_register initDB (List.replicate 16 1) "eve" "analyst"
    "ab" (by decide)


/-! The `AuditWF` hypothesis of the append-only theorem holds in every
reachable state. -/

theorem audit_log_op_auditWF (db : DB) (ok : Bool) (uid : Option Nat)
    (uname action tbl rid det : String) (h : AuditWF db) :
    AuditWF (audit_log_op db ok uid uname action tbl rid det) := by
  cases ok with
  | false => exact h
  | true =>
      intro r hr
      simp only [audit_log_op, if_true, List.mem_append, List.mem_singleton] at hr
      simp only [audit_log_op, if_true]
      rcases hr with hr | rfl
      · obtain ⟨h1, h2⟩ := h r hr
        exact ⟨Nat.lt_succ_of_lt h1, Nat.lt_succ_of_lt h2⟩
      · exact ⟨Nat.lt_succ_self _, Nat.lt_succ_self _⟩

theorem insert_app_user_auditWF (db : DB) (u r ph s : String) (h : AuditWF db) :
    AuditWF (insert_app_user db u r ph s).2 := by
  unfold insert_app_user
  split
  · exact h
  · intro rec hrec
    obtain ⟨h1, h2⟩ := h rec hrec
    exact ⟨h1, Nat.lt_succ_of_lt h2⟩

theorem create_app_user_auditWF (db : DB) (entropy : List Nat) (u r p : String)
    (h : AuditWF db) : AuditWF (create_app_user db entropy u r p).2 :=
  insert_app_user_auditWF db u r (hash_password p (make_salt entropy))
    (make_salt entropy) h

theorem insert_clothing_item_auditWF (db : DB) (engineOk : Bool)
    (nm size color : String) (price : Nat) (coll : Option Nat) (h : AuditWF db) :
    AuditWF (insert_clothing_item db engineOk nm size color price coll).2 := by
  unfold insert_clothing_item
  split
  · exact h
  · exact h

theorem step_preserves_auditWF (op : Op) (db : DB) (h : AuditWF db) :
    AuditWF (step op db) := by
  cases op with
  | registerForm entropy auditOk actor_uid actor uname role pw =>
      show AuditWF (create_app_user_form db entropy auditOk actor_uid actor
        uname role pw).2
      unfold create_app_user_form
      split
      · exact h
      · dsimp only
        split
        · exact audit_log_op_auditWF _ _ _ _ _ _ _ _
            (create_app_user_auditWF db entropy uname.trim role pw.trim h)
        · exact create_app_user_auditWF db entropy uname.trim role pw.trim h
  | adminBootstrap entropy raw_uname raw_pw =>
      show AuditWF (create_admin_main db entropy raw_uname raw_pw).2
      unfold create_admin_main create_admin
      dsimp only
      split
      · exact h
      · exact insert_app_user_auditWF db raw_uname.trim "admin" _ _ h
  | login u p => exact h
  | createItem engineOk auditOk uid actor nm size color price coll =>
      show AuditWF (create_item_form db engineOk auditOk uid actor nm size color
        price coll).2
      unfold create_item_form
      dsimp only
      split
      · exact audit_log_op_auditWF _ _ _ _ _ _ _ _
          (insert_clothing_item_auditWF db engineOk nm size color price coll h)
      · exact insert_clothing_item_auditWF db engineOk nm size color price coll h
  | updateItem engineOk auditOk uid actor item_id nm pr =>
      show AuditWF (update_item_form db engineOk auditOk uid actor item_id nm pr).2
      unfold update_item_form
      split
      · exact audit_log_op_auditWF _ _ _ _ _ _ _ _ h
      · exact h
  | deleteItem engineOk auditOk uid actor item_id =>
      show AuditWF (delete_item_form db engineOk auditOk uid actor item_id).2
      unfold delete_item_form
      split
      · exact audit_log_op_auditWF _ _ _ _ _ _ _ _ h
      · exact h
  | auditOnly engineOk uid username action tbl rid det =>
      exact audit_log_op_auditWF _ _ _ _ _ _ _ _ h

theorem run_auditWF (ops : List Op) (db : DB) (h : AuditWF db) :
    AuditWF (run ops db) := by
  induction ops generalizing db with
  | nil => exact h
  | cons op ops ih => exact ih _ (step_preserves_auditWF op db h)

/-- Every state reachable from the fresh database satisfies `AuditWF`. -/
theorem reachable_auditWF (ops : List Op) : AuditWF (run ops initDB) :=
  run_auditWF ops initDB (by decide)
